import Mathlib

/-!
Shallow embedding of `dialogflow-cx/vpc-sc-demo/backend/update_blueprint.py`:
the reconciliation endpoints that toggle webhook access, webhook ingress,
service-perimeter membership, and webhook fulfillment.  Remote collaborators
(token acquisition, HTTP fetches, the `status_utilities` resolvers, object
storage) are injected as parameters; each endpoint returns its HTTP response
together with the trace of remote calls it issued and the mutation payloads
it sent.
-/

/-- An HTTP response as produced by the flask endpoints.  `body = none` models
a response constructed without an explicit body (plain `flask.Response(status=...)`
or `flask.abort(code)`, whose body is flask's generic error page, never the
upstream text). -/
structure HttpResp where
  status : Nat
  body : Option String
  deriving Repr, DecidableEq

/-- Result of `get_token.get_token`: either a dict with a `response` key
(returned verbatim) or a dict with the access token. -/
inductive TokenResult where
  | resp (r : HttpResp)
  | token (t : String)
  deriving Repr, DecidableEq

/-- Result of a `status_utilities` resolver: either a dict carrying a
`response` key (propagated) or the resolved value. -/
inductive SuResult (α : Type) where
  | resp (r : HttpResp)
  | ok (a : α)
  deriving Repr, DecidableEq

/-- A remote GET result: HTTP status, raw text, and the parsed JSON payload
(meaningful only when `status = 200`, matching how the source only calls
`r.json()` after the status check). -/
structure RemoteResp (α : Type) where
  status : Nat
  text : String
  json : α
  deriving Repr, DecidableEq

/-- The outcome of one endpoint invocation: the flask response, the remote
requests issued (in order), and the mutation payloads sent upstream. -/
structure Outcome (α : Type) where
  response : HttpResp
  calls : List String
  mutations : List α
  deriving Repr, DecidableEq

/-- Python truthiness test for `flask.request.args.get('project_id', None)`:
`not project_id` is true when the parameter is absent or the empty string. -/
def pyFalsy : Option String → Bool
  | none => true
  | some s => s.isEmpty

/-- The exact body `json.dumps({'status':'BLOCKED', 'reason':'NO_PROJECT_ID'})`
produced with Python's default separators. -/
def blockedBody : String :=
  "\x7b\"status\": \"BLOCKED\", \"reason\": \"NO_PROJECT_ID\"\x7d"

/-- `flask.abort(status)`: the status code is kept, the upstream body is not. -/
def abortResp (status : Nat) : HttpResp := ⟨status, none⟩

/-! ## IAM policy model (lines 59-92 of the source) -/

/-- One IAM binding: a `role` and its `members` list. -/
structure Binding where
  role : String
  members : List String
  deriving Repr, DecidableEq

/-- An IAM policy as fetched from `getIamPolicy`.  `bindings = none` models a
policy dict without a `bindings` key (the source reads it with
`policy_dict.get('bindings', [])`). -/
structure IamPolicy where
  bindings : Option (List Binding)
  deriving Repr, DecidableEq

def invokerRole : String := "roles/cloudfunctions.invoker"

/-- Per-binding part of the scan at lines 61-64: some member equals
`"allUsers"` and the binding's role is the invoker role. -/
def bindingMakesPublic (b : Binding) : Bool :=
  b.members.any fun m => m == "allUsers" && b.role == "roles/cloudfunctions.invoker"

/-- Lines 60-64: `allUsers_is_invoker_member` after the scan over all
bindings and members. -/
def allUsersIsInvoker (p : IamPolicy) : Bool :=
  (p.bindings.getD []).any bindingMakesPublic

/-- Lines 74-77: for a binding with the invoker role, drop `'allUsers'` from
its member list (the repeated in-place reassignment inside the member loop has
exactly this effect); other bindings are untouched. -/
def removeAllUsers (b : Binding) : Binding :=
  if b.role == invokerRole then
    { b with members := b.members.filter fun m => m != "allUsers" }
  else b

/-- Lines 82-85: append `'allUsers'` to the members of each invoker-role
binding. -/
def appendAllUsers (b : Binding) : Binding :=
  if b.role == invokerRole then { b with members := b.members ++ ["allUsers"] }
  else b

/-- Lines 79-87: the public-access branch.  An absent or empty bindings list
is replaced by `[{'role': invoker, 'members': []}]`; then `'allUsers'` is
appended to every invoker-role binding, and if no invoker-role binding exists
a fresh one is appended. -/
def addAllUsersBindings (bs : List Binding) : List Binding :=
  let bs := if bs.length == 0 then [⟨invokerRole, []⟩] else bs
  if bs.any (fun b => b.role == invokerRole) then bs.map appendAllUsers
  else bs ++ [⟨invokerRole, ["allUsers"]⟩]

/-- Lines 73-87: the mutation computed on the fetched policy when the skip
condition fails.  With `internal_only` the removal loop leaves an absent
`bindings` key absent; otherwise the key is created. -/
def mutatePolicy (internal_only : Bool) (p : IamPolicy) : IamPolicy :=
  if internal_only then ⟨p.bindings.map fun bs => bs.map removeAllUsers⟩
  else ⟨some (addAllUsersBindings (p.bindings.getD []))⟩

/-- Lines 60-87 as a function on the fetched policy: the policy left behind by
one `update_webhook_access` pass (unchanged when the skip condition at lines
65-68 holds, otherwise the mutated policy that is posted to `setIamPolicy`). -/
def reconcileAccessPolicy (internal_only : Bool) (p : IamPolicy) : IamPolicy :=
  if (!internal_only && allUsersIsInvoker p) || (internal_only && !(allUsersIsInvoker p)) then p
  else mutatePolicy internal_only p

/-- The `/update_webhook_access` endpoint (lines 35-92).  `getIamPolicyResp`
is the injected result of the `getIamPolicy` GET, `setIamPolicyResp` the
status and text of the `setIamPolicy` POST. -/
def update_webhook_access (tok : TokenResult) (internal_only : Bool)
    (project_id : Option String) (getIamPolicyResp : RemoteResp IamPolicy)
    (setIamPolicyResp : Nat × String) : Outcome IamPolicy :=
  match tok with
  | .resp r => ⟨r, [], []⟩
  | .token _ =>
    if pyFalsy project_id then ⟨⟨200, some blockedBody⟩, [], []⟩
    else
      let r := getIamPolicyResp
      if r.status != 200 then ⟨abortResp r.status, ["getIamPolicy"], []⟩
      else
        let policy_dict := r.json
        let allUsers_is_invoker_member := allUsersIsInvoker policy_dict
        if (!internal_only && allUsers_is_invoker_member) ||
            (internal_only && !allUsers_is_invoker_member) then
          ⟨⟨200, none⟩, ["getIamPolicy"], []⟩
        else
          let policy_dict := mutatePolicy internal_only policy_dict
          if setIamPolicyResp.1 != 200 then
            ⟨abortResp setIamPolicyResp.1, ["getIamPolicy", "setIamPolicy"], [policy_dict]⟩
          else ⟨⟨200, none⟩, ["getIamPolicy", "setIamPolicy"], [policy_dict]⟩

example : allUsersIsInvoker ⟨some [⟨invokerRole, ["allUsers"]⟩]⟩ = true := by decide

example : reconcileAccessPolicy false ⟨none⟩ =
    ⟨some [⟨"roles/cloudfunctions.invoker", ["allUsers"]⟩]⟩ := by decide

/-! ## Ingress model (lines 95-133 of the source) -/

/-- A cloud-function descriptor as fetched by the ingress endpoint: the
`ingressSettings` field plus the remaining fields, opaque and carried along
verbatim through the full-object PATCH. -/
structure IngressDescriptor where
  ingressSettings : String
  rest : List (String × String)
  deriving Repr, DecidableEq

/-- The `/update_webhook_ingress` endpoint (lines 95-133).  `getResp` is the
injected result of the function GET, `patchResp` the status and text of the
PATCH. -/
def update_webhook_ingress (tok : TokenResult) (project_id : Option String)
    (internal_only : Bool) (getResp : RemoteResp IngressDescriptor)
    (patchResp : Nat × String) : Outcome IngressDescriptor :=
  match tok with
  | .resp r => ⟨r, [], []⟩
  | .token _ =>
    if pyFalsy project_id then ⟨⟨200, some blockedBody⟩, [], []⟩
    else
      let ingress_settings := if internal_only then "ALLOW_INTERNAL_ONLY" else "ALLOW_ALL"
      if getResp.status != 200 then
        ⟨⟨getResp.status, some getResp.text⟩, ["get_function"], []⟩
      else
        let webhook_data := getResp.json
        if webhook_data.ingressSettings == ingress_settings then
          ⟨⟨200, none⟩, ["get_function"], []⟩
        else
          let webhook_data := { webhook_data with ingressSettings := ingress_settings }
          if patchResp.1 != 200 then
            ⟨⟨patchResp.1, some patchResp.2⟩, ["get_function", "patch_function"], [webhook_data]⟩
          else ⟨⟨200, none⟩, ["get_function", "patch_function"], [webhook_data]⟩

/-! ## Service-perimeter model (lines 136-213 of the source) -/

/-- The JSON value stored under `status.restrictedServices`.  It is a list of
service names in a well-formed perimeter, but line 145 of the source can also
store a bare string there, so both shapes are represented. -/
inductive RSValue where
  | str (s : String)
  | list (l : List String)
  deriving Repr, DecidableEq

/-- A service-perimeter descriptor: the optional `status.restrictedServices`
value (`none` models an absent key) plus the remaining opaque fields of the
`status` object. -/
structure PerimeterStatus where
  restrictedServices : Option RSValue
  rest : List (String × String)
  deriving Repr, DecidableEq

/-- Character-list version of `String.startsWith`, used to model Python's
substring test. -/
def startsWithChars : List Char → List Char → Bool
  | [], _ => true
  | _ :: _, [] => false
  | a :: as, b :: bs => a == b && startsWithChars as bs

/-- Whether `needle` occurs as a contiguous run inside `haystack`. -/
def hasSubstring (needle : List Char) : List Char → Bool
  | [] => needle.isEmpty
  | c :: rest => startsWithChars needle (c :: rest) || hasSubstring needle rest

/-- Python's `api in x` for the `restrictedServices` value: list membership
for a list, substring containment for a string. -/
def pyIn (api : String) : RSValue → Bool
  | .list l => l.contains api
  | .str s => hasSubstring api.data s.data

/-- Python's `[service for service in x if service != api]`: a filter for a
list; for a string it iterates the characters, producing a list of
one-character strings. -/
def pyFilterNe (api : String) : RSValue → RSValue
  | .list l => .list (l.filter fun s => s != api)
  | .str s => .list ((s.data.map fun c => String.mk [c]).filter fun s => s != api)

/-- `update_service_perimeter_status_inplace` (lines 136-149).  Returns the
optional short-circuit response together with the (possibly mutated) status;
`Except` carries the `AttributeError` raised by `.append` when line 149 is
reached with a string value. -/
def update_service_perimeter_status_inplace (api : String) (restrict_access : Bool)
    (service_perimeter_status : PerimeterStatus) :
    Except String (Option HttpResp × PerimeterStatus) :=
  if restrict_access == false then
    match service_perimeter_status.restrictedServices with
    | none => .ok (some ⟨200, none⟩, service_perimeter_status)
    | some v =>
      if !pyIn api v then .ok (some ⟨200, none⟩, service_perimeter_status)
      else .ok (none, { service_perimeter_status with restrictedServices := some (pyFilterNe api v) })
  else
    match service_perimeter_status.restrictedServices with
    | none => .ok (none, { service_perimeter_status with restrictedServices := some (.str api) })
    | some v =>
      if pyIn api v then .ok (some ⟨200, none⟩, service_perimeter_status)
      else
        match v with
        | .list l => .ok (none, { service_perimeter_status with restrictedServices := some (.list (l ++ [api])) })
        | .str _ => .error "AttributeError: str object has no attribute append"

/-- `update_security_perimeter` (lines 152-169).  The perimeter status has
already been fetched by `su.get_service_perimeter_status` (injected as
`service_perimeter_status`); `uriResult` injects
`su.get_service_perimeter_data_uri` (whose `response` case the source returns
directly at line 163), and `patchResp` the PATCH result. -/
def update_security_perimeter (api : String) (restrict_access : Bool)
    (service_perimeter_status : PerimeterStatus) (uriResult : SuResult String)
    (patchResp : Nat × String) : Except String (Outcome PerimeterStatus) := do
  let (responseOpt, mutated) ←
    update_service_perimeter_status_inplace api restrict_access service_perimeter_status
  match responseOpt with
  | some response => pure ⟨response, ["get_service_perimeter_status"], []⟩
  | none =>
    match uriResult with
    | .resp r => pure ⟨r, ["get_service_perimeter_status", "get_service_perimeter_data_uri"], []⟩
    | .ok _uri =>
      if patchResp.1 != 200 then
        pure ⟨⟨patchResp.1, some patchResp.2⟩,
          ["get_service_perimeter_status", "get_service_perimeter_data_uri", "patch_perimeter"],
          [mutated]⟩
      else
        pure ⟨⟨200, none⟩,
          ["get_service_perimeter_status", "get_service_perimeter_data_uri", "patch_perimeter"],
          [mutated]⟩

/-- The `/update_security_perimeter_cloudfunctions` endpoint (lines 172-191).
`accessPolicyName` injects `su.get_access_policy_name`. -/
def update_security_perimeter_cloudfunctions (tok : TokenResult)
    (project_id : Option String) (accessPolicyName : SuResult String)
    (restrict_access : Bool) (service_perimeter_status : PerimeterStatus)
    (uriResult : SuResult String) (patchResp : Nat × String) :
    Except String (Outcome PerimeterStatus) :=
  match tok with
  | .resp r => .ok ⟨r, [], []⟩
  | .token _ =>
    if pyFalsy project_id then .ok ⟨⟨200, some blockedBody⟩, [], []⟩
    else
      match accessPolicyName with
      | .resp r => .ok ⟨r, ["get_access_policy_name"], []⟩
      | .ok _name => do
        let o ← update_security_perimeter "cloudfunctions.googleapis.com" restrict_access
          service_perimeter_status uriResult patchResp
        pure { o with calls := "get_access_policy_name" :: o.calls }

/-- The `/update_security_perimeter_dialogflow` endpoint (lines 194-213). -/
def update_security_perimeter_dialogflow (tok : TokenResult)
    (project_id : Option String) (accessPolicyName : SuResult String)
    (restrict_access : Bool) (service_perimeter_status : PerimeterStatus)
    (uriResult : SuResult String) (patchResp : Nat × String) :
    Except String (Outcome PerimeterStatus) :=
  match tok with
  | .resp r => .ok ⟨r, [], []⟩
  | .token _ =>
    if pyFalsy project_id then .ok ⟨⟨200, some blockedBody⟩, [], []⟩
    else
      match accessPolicyName with
      | .resp r => .ok ⟨r, ["get_access_policy_name"], []⟩
      | .ok _name => do
        let o ← update_security_perimeter "dialogflow.googleapis.com" restrict_access
          service_perimeter_status uriResult patchResp
        pure { o with calls := "get_access_policy_name" :: o.calls }

/-! ## Fulfillment model (lines 215-280 of the source) -/

def DOMAIN : String := "webhook.internal"

/-- The PATCH payload constructed for the dialogflow webhook. -/
inductive FulfillmentData where
  | genericWebService (uri : String)
  | serviceDirectory (service : String) (uri : String) (cert : String)
  deriving Repr, DecidableEq

/-- Lines 224-227: the fulfillment mode chosen from the request body's
boolean `status` field. -/
def fulfillment_of_status (status : Bool) : String :=
  if status == true then "service-directory" else "generic-web-service"

/-- Lines 248-269: the dispatch on the fulfillment string.  `none` models the
final `else` branch, which returns 500 with the
`Unexpected setting for fulfillment` body.  `cert_b64` injects the
base64-encoded certificate downloaded from object storage in the
service-directory branch. -/
def fulfillmentData (fulfillment : String) (webhook_trigger_uri : String)
    (pid region : String) (cert_b64 : String) : Option FulfillmentData :=
  if fulfillment == "generic-web-service" then
    some (.genericWebService webhook_trigger_uri)
  else if fulfillment == "service-directory" then
    some (.serviceDirectory
      ("projects/" ++ pid ++ "/locations/" ++ region ++
        "/namespaces/df-namespace/services/df-service")
      ("https://" ++ DOMAIN) cert_b64)
  else none

/-- The `/update_service_directory_webhook_fulfillment` endpoint (lines
215-280).  `agentsResult` and `webhooksResult` inject `su.get_agents` and
`su.get_webhooks` (resolved to the relevant names), `cert_b64` the encoded
certificate downloaded in the service-directory branch, and `patchResp` the
dialogflow PATCH result (rejections go through `flask.abort`). -/
def update_service_directory_webhook_fulfillment (tok : TokenResult)
    (status : Bool) (project_id : Option String)
    (_bucket region webhook_name : String) (agentsResult : SuResult String)
    (webhooksResult : SuResult String) (cert_b64 : String)
    (patchResp : Nat × String) : Outcome FulfillmentData :=
  match tok with
  | .resp r => ⟨r, [], []⟩
  | .token _ =>
    let fulfillment := fulfillment_of_status status
    if pyFalsy project_id then ⟨⟨200, some blockedBody⟩, [], []⟩
    else
      let pid := project_id.getD ""
      let webhook_trigger_uri :=
        "https://" ++ region ++ "-" ++ pid ++ ".cloudfunctions.net/" ++ webhook_name
      match agentsResult with
      | .resp r => ⟨r, ["get_agents"], []⟩
      | .ok _agent_name =>
        match webhooksResult with
        | .resp r => ⟨r, ["get_agents", "get_webhooks"], []⟩
        | .ok _webhook_full_name =>
          match fulfillmentData fulfillment webhook_trigger_uri pid region cert_b64 with
          | none =>
            ⟨⟨500, some ("Unexpected setting for fulfillment: " ++ fulfillment)⟩,
              ["get_agents", "get_webhooks"], []⟩
          | some data =>
            let dl := match data with
              | .serviceDirectory _ _ _ => ["download_cert"]
              | .genericWebService _ => []
            if patchResp.1 != 200 then
              ⟨abortResp patchResp.1,
                ["get_agents", "get_webhooks"] ++ dl ++ ["patch_webhook"], [data]⟩
            else
              ⟨⟨200, none⟩, ["get_agents", "get_webhooks"] ++ dl ++ ["patch_webhook"], [data]⟩

/-! ## Invoker-binding evaluator lemmas -/

theorem removeAllUsers_not_public (b : Binding) :
    bindingMakesPublic (removeAllUsers b) = false := by
  rcases b with ⟨role, members⟩
  by_cases h : (role == invokerRole) = true
  · simp only [removeAllUsers, bindingMakesPublic, h, if_pos]
    refine List.any_eq_false.mpr ?_
    intro x hx
    rw [List.mem_filter] at hx
    have hx2 := hx.2
    simp only [bne_iff_ne, ne_eq] at hx2
    simp [hx2]
  · simp only [removeAllUsers, bindingMakesPublic, h, if_neg]
    have h' : (role == "roles/cloudfunctions.invoker") = false := by
      simpa [invokerRole] using h
    refine List.any_eq_false.mpr ?_
    intro x hx
    simp [h']

theorem addAllUsers_core_public (bs : List Binding) :
    ((if bs.any (fun b => b.role == invokerRole) then bs.map appendAllUsers
      else bs ++ [⟨invokerRole, ["allUsers"]⟩]).any bindingMakesPublic) = true := by
  by_cases h : bs.any (fun b => b.role == invokerRole) = true
  · rw [if_pos h]
    obtain ⟨b, hb, hrole⟩ := List.any_eq_true.mp h
    refine List.any_eq_true.mpr ⟨appendAllUsers b, List.mem_map_of_mem _ hb, ?_⟩
    simp only [appendAllUsers, hrole, if_pos]
    refine List.any_eq_true.mpr ⟨"allUsers", by simp, ?_⟩
    simp only [invokerRole] at hrole
    simp [hrole]
  · rw [if_neg (by simpa using h)]
    rw [List.any_append]
    have hpub : bindingMakesPublic ⟨invokerRole, ["allUsers"]⟩ = true := by decide
    simp [hpub]

theorem addAllUsersBindings_public (bs : List Binding) :
    (addAllUsersBindings bs).any bindingMakesPublic = true := by
  unfold addAllUsersBindings
  exact addAllUsers_core_public (if bs.length == 0 then [⟨invokerRole, []⟩] else bs)

theorem allUsersIsInvoker_mutatePolicy (internal_only : Bool) (p : IamPolicy) :
    allUsersIsInvoker (mutatePolicy internal_only p) = !internal_only := by
  cases internal_only
  · simp only [mutatePolicy, Bool.not_false, if_neg, Bool.false_eq_true, not_false_iff]
    simp only [allUsersIsInvoker, Option.getD_some]
    exact addAllUsersBindings_public _
  · simp only [mutatePolicy, if_pos, Bool.not_true]
    cases hp : p.bindings with
    | none => simp [allUsersIsInvoker, hp]
    | some bs =>
      simp only [allUsersIsInvoker, hp]
      simp only [Option.map_some', Option.getD_some, List.any_map]
      refine List.any_eq_false.mpr ?_
      intro b _hb
      simp [Function.comp, removeAllUsers_not_public b]

/-- C1: for every IAM policy (each binding carrying a role) and every desired
boolean, evaluating the skip condition and applying the computed mutation when
there is one leaves a policy in which `allUsers` is a member of some
`roles/cloudfunctions.invoker` binding exactly when the desired
`internal_only` flag is false. -/
theorem c1_access_reconcile_allUsers (internal_only : Bool) (p : IamPolicy) :
    allUsersIsInvoker (reconcileAccessPolicy internal_only p) = !internal_only := by
  unfold reconcileAccessPolicy
  by_cases h : ((!internal_only && allUsersIsInvoker p) ||
      (internal_only && !(allUsersIsInvoker p))) = true
  · rw [if_pos h]
    cases hd : internal_only <;> cases ha : allUsersIsInvoker p <;> simp_all
  · rw [if_neg (by simpa using h)]
    exact allUsersIsInvoker_mutatePolicy internal_only p

/-- The policy `{bindings: [{role: "roles/cloudfunctions.invoker",
members: ["allUsers"]}]}` used in the spec's scenarios. -/
def examplePublicPolicy : IamPolicy :=
  ⟨some [⟨"roles/cloudfunctions.invoker", ["allUsers"]⟩]⟩

theorem pyFalsy_proj : pyFalsy (some "proj") = false := by decide

/-- C2: on a successful fetch, `update_webhook_access` skips the mutation
(no `setIamPolicy` call, immediate 200) exactly when
`(not internal_only and allUsersIsInvoker) or (internal_only and not
allUsersIsInvoker)`; in particular the already-public policy with desired
`internal_only = false` gets no mutation and an immediate 200. -/
theorem c2_access_skip_iff (p : IamPolicy) (d : Bool) (s : Nat) (t : String) :
    (((update_webhook_access (.token "tok") d (some "proj") ⟨200, "", p⟩ (s, t)).mutations = [] ∧
      (update_webhook_access (.token "tok") d (some "proj") ⟨200, "", p⟩ (s, t)).response.status
        = 200) ↔
      ((!d && allUsersIsInvoker p) || (d && !(allUsersIsInvoker p))) = true) ∧
    update_webhook_access (.token "tok") false (some "proj") ⟨200, "", examplePublicPolicy⟩
        (s, t) = ⟨⟨200, none⟩, ["getIamPolicy"], []⟩ := by
  constructor
  · by_cases h : ((!d && allUsersIsInvoker p) || (d && !(allUsersIsInvoker p))) = true
    · simp [update_webhook_access, pyFalsy_proj, h]
    · by_cases hs : s = 200 <;> simp [update_webhook_access, pyFalsy_proj, h, hs]
  · simp [update_webhook_access, examplePublicPolicy, allUsersIsInvoker, bindingMakesPublic,
      pyFalsy_proj]

/-- C5: when the evaluator computed a mutation (the skip condition failed) and
it was applied, a second `update_webhook_access` run with the same desired
boolean on the mutated policy satisfies the skip condition: it issues no
second mutation and returns 200 immediately. -/
theorem c5_access_idempotent (p : IamPolicy) (d : Bool) (s : Nat) (t : String)
    (h : ((!d && allUsersIsInvoker p) || (d && !(allUsersIsInvoker p))) = false) :
    update_webhook_access (.token "tok") d (some "proj") ⟨200, "", mutatePolicy d p⟩ (s, t) =
      ⟨⟨200, none⟩, ["getIamPolicy"], []⟩ := by
  have ha := allUsersIsInvoker_mutatePolicy d p
  cases d <;> simp_all [update_webhook_access, pyFalsy_proj]

/-- Witness for C5: the already-public policy with desired
`internal_only = true` fails the skip condition, and the second run on the
mutated policy short-circuits. -/
theorem c5_access_idempotent_witness :
    ((!true && allUsersIsInvoker examplePublicPolicy) ||
      (true && !(allUsersIsInvoker examplePublicPolicy))) = false ∧
    update_webhook_access (.token "tok") true (some "proj")
        ⟨200, "", mutatePolicy true examplePublicPolicy⟩ (200, "") =
      ⟨⟨200, none⟩, ["getIamPolicy"], []⟩ :=
  ⟨by decide, c5_access_idempotent examplePublicPolicy true 200 "" (by decide)⟩

/-- C6: on a successful fetch, `update_webhook_ingress` skips the PATCH
exactly when the descriptor's `ingressSettings` already equals the desired
setting (`true` maps to `ALLOW_INTERNAL_ONLY`, `false` to `ALLOW_ALL`);
otherwise it PATCHes the full descriptor with only `ingressSettings`
changed and every other field preserved. -/
theorem c6_ingress_reconcile (wd : IngressDescriptor) (d : Bool) :
    update_webhook_ingress (.token "tok") (some "proj") d ⟨200, "", wd⟩ (200, "") =
      (if wd.ingressSettings == (if d then "ALLOW_INTERNAL_ONLY" else "ALLOW_ALL") then
        ⟨⟨200, none⟩, ["get_function"], []⟩
      else
        ⟨⟨200, none⟩, ["get_function", "patch_function"],
          [{ wd with ingressSettings := if d then "ALLOW_INTERNAL_ONLY" else "ALLOW_ALL" }]⟩) := by
  by_cases h :
      (wd.ingressSettings == (if d then "ALLOW_INTERNAL_ONLY" else "ALLOW_ALL")) = true <;>
    simp [update_webhook_ingress, pyFalsy_proj, h]

/-- C7 counterexample: when the IAM-policy GET returns 403 with body
`denied`, `update_webhook_access` propagates the 403 and attempts no
mutation, but its response body (built by `flask.abort`) is not the
upstream body. -/
theorem c7_counterexample :
    (update_webhook_access (.token "tok") false (some "proj")
        ⟨403, "denied", examplePublicPolicy⟩ (200, "")).response.status = 403 ∧
    (update_webhook_access (.token "tok") false (some "proj")
        ⟨403, "denied", examplePublicPolicy⟩ (200, "")).mutations = [] ∧
    ¬ (update_webhook_access (.token "tok") false (some "proj")
        ⟨403, "denied", examplePublicPolicy⟩ (200, "")).response.body = some "denied" := by
  refine ⟨by decide, by decide, by decide⟩

/-- C7 amended: every non-success fetch short-circuits with the upstream
status code and no mutation; `update_webhook_ingress` additionally returns
the upstream body unchanged, while `update_webhook_access` goes through
`flask.abort`, which replaces the upstream body with a generic one. -/
theorem c7_amended_fetch_failure (s : Nat) (txt : String) (p : IamPolicy)
    (wd : IngressDescriptor) (d : Bool) (pr : Nat × String) (h : ¬ s = 200) :
    update_webhook_access (.token "tok") d (some "proj") ⟨s, txt, p⟩ pr =
      ⟨⟨s, none⟩, ["getIamPolicy"], []⟩ ∧
    update_webhook_ingress (.token "tok") (some "proj") d ⟨s, txt, wd⟩ pr =
      ⟨⟨s, some txt⟩, ["get_function"], []⟩ := by
  constructor <;>
    simp [update_webhook_access, update_webhook_ingress, pyFalsy_proj, abortResp, h]

/-- Witness for the amended C7 at a 403 fetch failure. -/
theorem c7_fetch_failure_witness :
    update_webhook_access (.token "tok") false (some "proj") ⟨403, "nope", ⟨none⟩⟩ (200, "") =
      ⟨⟨403, none⟩, ["getIamPolicy"], []⟩ ∧
    update_webhook_ingress (.token "tok") (some "proj") false
        ⟨403, "nope", ⟨"ALLOW_ALL", []⟩⟩ (200, "") =
      ⟨⟨403, some "nope"⟩, ["get_function"], []⟩ :=
  c7_amended_fetch_failure 403 "nope" ⟨none⟩ ⟨"ALLOW_ALL", []⟩ false (200, "") (by decide)

/-- C8: on each of the five endpoints, when the token is obtained and the
body parsed, a missing `project_id` query parameter yields status 200 with
the structured BLOCKED body and no remote call or mutation. -/
theorem c8_no_project_id_blocked (t : String) (d : Bool) (rp : RemoteResp IamPolicy)
    (sp : Nat × String) (ri : RemoteResp IngressDescriptor) (pr : Nat × String)
    (apn uri agr whr : SuResult String) (ps : PerimeterStatus)
    (bucket region wn cert : String) (fr : Nat × String) :
    update_webhook_access (.token t) d none rp sp = ⟨⟨200, some blockedBody⟩, [], []⟩ ∧
    update_webhook_ingress (.token t) none d ri pr = ⟨⟨200, some blockedBody⟩, [], []⟩ ∧
    update_security_perimeter_cloudfunctions (.token t) none apn d ps uri pr =
      .ok ⟨⟨200, some blockedBody⟩, [], []⟩ ∧
    update_security_perimeter_dialogflow (.token t) none apn d ps uri pr =
      .ok ⟨⟨200, some blockedBody⟩, [], []⟩ ∧
    update_service_directory_webhook_fulfillment (.token t) d none bucket region wn
        agr whr cert fr = ⟨⟨200, some blockedBody⟩, [], []⟩ :=
  ⟨rfl, rfl, rfl, rfl, rfl⟩

/-- C3: on the perimeter status with no `restrictedServices` key and
desired `true`, the evaluator stores the bare string
`"x.googleapis.com"` under `restrictedServices` (line 145), not the
one-element list the spec describes. -/
theorem c3_perimeter_add_absent_is_string :
    update_service_perimeter_status_inplace "x.googleapis.com" true ⟨none, []⟩ =
      .ok (none, ⟨some (.str "x.googleapis.com"), []⟩) ∧
    RSValue.str "x.googleapis.com" ≠ RSValue.list ["x.googleapis.com"] :=
  ⟨rfl, by decide⟩

/-- C9: missing optional fields never raise: a policy without a `bindings`
key is treated as having none (skip in the remove direction, a fresh binding
in the add direction), and a status without `restrictedServices` skips in the
remove direction; but in the add direction the evaluator stores a bare
string instead of treating the absent key as the empty list. -/
theorem c9_missing_optional_fields :
    update_webhook_access (.token "tok") true (some "proj") ⟨200, "", ⟨none⟩⟩ (200, "") =
      ⟨⟨200, none⟩, ["getIamPolicy"], []⟩ ∧
    reconcileAccessPolicy false ⟨none⟩ =
      ⟨some [⟨"roles/cloudfunctions.invoker", ["allUsers"]⟩]⟩ ∧
    update_service_perimeter_status_inplace "y.googleapis.com" false ⟨none, []⟩ =
      .ok (some ⟨200, none⟩, ⟨none, []⟩) ∧
    update_service_perimeter_status_inplace "y.googleapis.com" true ⟨none, []⟩ =
      .ok (none, ⟨some (.str "y.googleapis.com"), []⟩) ∧
    RSValue.str "y.googleapis.com" ≠ RSValue.list ["y.googleapis.com"] :=
  ⟨by decide, by decide, rfl, rfl, by decide⟩

/-- C10: for a boolean request `status`, the computed fulfillment string is
always one of the two dispatched values, so the 500
`Unexpected setting for fulfillment` branch is unreachable. -/
theorem c10_fulfillment_mode_total (b : Bool) (uri pid region cert : String) :
    (fulfillmentData (fulfillment_of_status b) uri pid region cert).isSome = true := by
  cases b <;> rfl

/-! ## Perimeter round-trip (C4) -/

/-- Run the perimeter evaluator with `restrict_access = true` (add the api)
and then with `restrict_access = false` (remove it), threading the possibly
mutated status. -/
def addThenRemove (api : String) (s : PerimeterStatus) :
    Except String PerimeterStatus :=
  match update_service_perimeter_status_inplace api true s with
  | .error e => .error e
  | .ok (_, s₁) =>
    match update_service_perimeter_status_inplace api false s₁ with
    | .error e => .error e
    | .ok (_, s₂) => .ok s₂

/-- Equality of `restrictedServices` values up to list order. -/
def rsValEquiv : RSValue → RSValue → Prop
  | .list a, .list b => (a : Multiset String) = (b : Multiset String)
  | .str a, .str b => a = b
  | _, _ => False

instance rsValEquiv.dec : ∀ v w : RSValue, Decidable (rsValEquiv v w) := fun v w => by
  cases v <;> cases w <;> simp only [rsValEquiv] <;> infer_instance

/-- Equality of optional `restrictedServices` values up to list order; both
absent counts as equal. -/
def optRsEquiv : Option RSValue → Option RSValue → Prop
  | none, none => True
  | some v, some w => rsValEquiv v w
  | _, _ => False

instance optRsEquiv.dec : ∀ v w : Option RSValue, Decidable (optRsEquiv v w) := fun v w => by
  cases v <;> cases w <;> simp only [optRsEquiv] <;> infer_instance

/-- Perimeter statuses equal up to the order of the `restrictedServices`
list. -/
def statusEqUpToOrder (s t : PerimeterStatus) : Prop :=
  optRsEquiv s.restrictedServices t.restrictedServices ∧ s.rest = t.rest

instance statusEqUpToOrder.dec (s t : PerimeterStatus) :
    Decidable (statusEqUpToOrder s t) := by
  unfold statusEqUpToOrder
  infer_instance

theorem filter_ne_self_of_not_mem (l : List String) (a : String) (h : a ∉ l) :
    l.filter (fun s => s != a) = l := by
  refine List.filter_eq_self.mpr ?_
  intro x hx
  simp only [bne_iff_ne, ne_eq]
  intro hxa
  exact h (hxa ▸ hx)

/-- C4 counterexample: adding then removing is not a no-op in general.  When
the api is already in the list, the add pass skips and the remove pass strips
it; when `restrictedServices` is absent, the add pass stores a bare string
and the remove pass shatters it into its characters. -/
theorem c4_counterexample :
    (addThenRemove "a.googleapis.com" ⟨some (.list ["a.googleapis.com"]), []⟩ =
        .ok ⟨some (.list []), []⟩ ∧
      ¬ statusEqUpToOrder ⟨some (.list []), []⟩ ⟨some (.list ["a.googleapis.com"]), []⟩) ∧
    (addThenRemove "xy" ⟨none, []⟩ = .ok ⟨some (.list ["x", "y"]), []⟩ ∧
      ¬ statusEqUpToOrder ⟨some (.list ["x", "y"]), []⟩ ⟨none, []⟩) :=
  ⟨⟨rfl, by decide⟩, ⟨rfl, by decide⟩⟩

/-- C4 amended: for every perimeter status whose `restrictedServices` key is
present as a list and every api name not already in that list, adding and
then removing the api returns exactly the original status (in particular,
equal up to list order). -/
theorem c4_add_remove_roundtrip (l : List String) (rest : List (String × String))
    (api : String) (h : api ∉ l) :
    addThenRemove api ⟨some (.list l), rest⟩ = .ok ⟨some (.list l), rest⟩ := by
  simp only [addThenRemove, update_service_perimeter_status_inplace, pyIn, pyFilterNe]
  simp [h, List.filter_append, filter_ne_self_of_not_mem l api h]

/-- Witness for the amended C4: a round trip of an api name absent from a
present `restrictedServices` list restores the original status. -/
theorem c4_roundtrip_witness :
    "b.googleapis.com" ∉ ["a.googleapis.com"] ∧
    addThenRemove "b.googleapis.com" ⟨some (.list ["a.googleapis.com"]), []⟩ =
      .ok ⟨some (.list ["a.googleapis.com"]), []⟩ :=
  ⟨by decide, c4_add_remove_roundtrip ["a.googleapis.com"] [] "b.googleapis.com" (by decide)⟩
